import Mathlib

/-!
Shallow embedding of the multi-agent news analyzer pipeline (`src/4.py`):
a linear three-stage pipeline (fact extraction, bias analysis, score
derivation) over a shared state record, driven by a controller that
validates input, optionally summarizes long text, and renders a 4-tuple
of display strings.

Python string primitives are embedded as executable Lean functions over
`String.data` (lists of characters), faithful to CPython semantics for
the operations the program uses: `str.strip`, `str.split` on a one-char
separator, `str.lower`, substring containment (`in`), and `str.join`.
-/

namespace NewsAnalyzer

/-- Python `s.strip()`: drop leading and trailing whitespace characters. -/
def pyStrip (s : String) : String :=
  ⟨((s.data.dropWhile Char.isWhitespace).reverse.dropWhile Char.isWhitespace).reverse⟩

/-- Helper for `pySplit`: walk the character list, cutting at each occurrence
of the separator character; `acc` holds the current fragment reversed. -/
def splitAux (c : Char) : List Char → List Char → List (List Char)
  | [], acc => [acc.reverse]
  | x :: xs, acc =>
    if x = c then acc.reverse :: splitAux c xs []
    else splitAux c xs (x :: acc)

/-- Python `s.split(c)` for a single-character separator: the fragments
between occurrences of `c`, empty fragments preserved (`"".split(".") == [""]`). -/
def pySplit (s : String) (c : Char) : List String :=
  (splitAux c s.data []).map (fun l => ⟨l⟩)

/-- Python `s.lower()` (ASCII case mapping suffices for this program). -/
def pyLower (s : String) : String :=
  ⟨s.data.map Char.toLower⟩

/-- Whether `pat` occurs at the start of `s` (character lists). -/
def startsWith : List Char → List Char → Bool
  | [], _ => true
  | _ :: _, [] => false
  | x :: xs, y :: ys => x = y && startsWith xs ys

/-- Whether `pat` occurs anywhere in `l` (character lists). -/
def hasSub (pat : List Char) : List Char → Bool
  | [] => pat.isEmpty
  | y :: ys => startsWith pat (y :: ys) || hasSub pat ys

/-- Python `pat in s`: substring containment. -/
def pyContains (s pat : String) : Bool :=
  hasSub pat.data s.data

/-- Python `sep.join(l)`. -/
def pyJoin (sep : String) : List String → String
  | [] => ""
  | [x] => x
  | x :: y :: ys => x ++ sep ++ pyJoin sep (y :: ys)

/-- The shared pipeline state (`NewsState` in the source): article text,
extracted facts, matched bias terms, neutrality score, remark, and the
accumulated trace log. The source's float score only ever holds the
literals 0.0 / 0.3 / 0.6 / 0.9, represented exactly as rationals. -/
structure NewsState where
  text : String
  facts : List String
  bias_words : List String
  score : Rat
  remark : String
  logs : List String

/-- `summarizer_agent`: split on periods and rejoin the first 5 fragments. -/
def summarizer_agent (text : String) : String :=
  let sentences := pySplit text '.'
  pyJoin "." (sentences.take 5)

/-- `fact_extractor`: keep the period-delimited fragments of `state.text`
containing `" is "` or `" was "`, stripped, as `facts`; append a trace line. -/
def fact_extractor (state : NewsState) : NewsState :=
  let text := state.text
  let facts := ((pySplit text '.').filter
      (fun s => pyContains s " is " || pyContains s " was ")).map pyStrip
  { state with facts := facts,
               logs := state.logs ++ ["Fact Extractor Agent executed"] }

/-- The fixed bias-term list of `bias_analyzer`. -/
def biased_words : List String :=
  ["shocking", "disaster", "failure", "corrupt", "outrage"]

/-- `bias_analyzer`: the terms of `biased_words` contained in the lowercased
`state.text`, in list order, become `bias_words`; append a trace line. -/
def bias_analyzer (state : NewsState) : NewsState :=
  let text := pyLower state.text
  let found_bias := biased_words.filter (fun w => pyContains text w)
  { state with bias_words := found_bias,
               logs := state.logs ++ ["Bias Analyzer Agent executed"] }

/-- `supervisor_agent`: map `len(bias_words)` through the three-bucket
decision table to a score/remark pair; append a trace line. -/
def supervisor_agent (state : NewsState) : NewsState :=
  let bias_count := state.bias_words.length
  let sr : Rat × String :=
    if bias_count = 0 then (mkRat 9 10, "Mostly Neutral")
    else if bias_count ≤ 2 then (mkRat 6 10, "Moderately Biased")
    else (mkRat 3 10, "Highly Biased")
  { state with score := sr.1, remark := sr.2,
               logs := state.logs ++ ["Supervisor Agent calculated neutrality score"] }

/-- The compiled LangGraph `app`: linear topology FactAgent → BiasAgent →
Supervisor, each node receiving the previous node's state. -/
def app_invoke (state : NewsState) : NewsState :=
  supervisor_agent (bias_analyzer (fact_extractor state))

/-- Python's decimal rendering of the score float in the f-string
`"{score} ({remark})"`; only the four literals of the program occur. -/
def showScore (q : Rat) : String :=
  if q = mkRat 9 10 then "0.9"
  else if q = mkRat 6 10 then "0.6"
  else if q = mkRat 3 10 then "0.3"
  else "0.0"

example : (mkRat 9 10 : Rat) = 0.9 := by norm_num [mkRat, Rat.normalize]
example : (mkRat 6 10 : Rat) = 0.6 := by norm_num [mkRat, Rat.normalize]
example : (mkRat 3 10 : Rat) = 0.3 := by norm_num [mkRat, Rat.normalize]

/-- The fresh state `run_news_analyzer` builds before invoking the graph. -/
def initState (text : String) (logs : List String) : NewsState :=
  { text := text, facts := [], bias_words := [], score := mkRat 0 1, remark := "",
    logs := logs }

/-- The result rendering of `run_news_analyzer` steps: facts newline-joined
(`or`-defaulted to a placeholder when the join is empty, Python truthiness),
bias words comma-joined likewise, the score f-string, and the joined log. -/
def render (r : NewsState) : String × String × String × String :=
  (if pyJoin "\n" r.facts = "" then "No factual statements found"
   else pyJoin "\n" r.facts,
   if pyJoin ", " r.bias_words = "" then "No bias indicators found"
   else pyJoin ", " r.bias_words,
   showScore r.score ++ " (" ++ r.remark ++ ")",
   pyJoin "\n" r.logs)

/-- `run_news_analyzer`: validate, optionally summarize text longer than
1000 characters, initialize the state, invoke the graph, render. -/
def run_news_analyzer (text : String) : String × String × String × String :=
  if pyStrip text = "" then ("❌ No article provided", "", "", "")
  else
    let tl : String × List String :=
      if text.length > 1000 then
        (summarizer_agent text, ["Article length > 1000 → Summarizer Agent executed"])
      else (text, [])
    render (app_invoke (initState tl.1 tl.2))

/-! ## Helper lemmas about the string primitives -/

/-- When `pyStrip` erases a string completely, every character was whitespace. -/
lemma pyStrip_eq_empty_forall {s : String} (h : pyStrip s = "") :
    ∀ c ∈ s.data, c.isWhitespace := by
  intro c hc
  have h' : ((s.data.dropWhile Char.isWhitespace).reverse.dropWhile
      Char.isWhitespace).reverse = [] := congrArg String.data h
  rw [List.reverse_eq_nil_iff, List.dropWhile_eq_nil_iff] at h'
  have hsplit := List.takeWhile_append_dropWhile Char.isWhitespace s.data
  rw [← hsplit] at hc
  rcases List.mem_append.mp hc with htk | hdr
  · exact List.mem_takeWhile_imp htk
  · exact h' c (List.mem_reverse.mpr hdr)

/-- A matched leading pattern is made of characters of the scanned list. -/
lemma startsWith_subset {p s : List Char} (h : startsWith p s = true) :
    ∀ c ∈ p, c ∈ s := by
  induction p generalizing s with
  | nil => intro c hc; cases hc
  | cons x xs ih =>
    intro c hc
    cases s with
    | nil => simp [startsWith] at h
    | cons y ys =>
      rw [startsWith, Bool.and_eq_true] at h
      rcases List.mem_cons.mp hc with rfl | hc
      · exact (of_decide_eq_true h.1) ▸ List.mem_cons_self _ _
      · exact List.mem_cons_of_mem _ (ih h.2 c hc)

/-- A matched substring pattern is made of characters of the scanned list. -/
lemma hasSub_subset {p l : List Char} (h : hasSub p l = true) :
    ∀ c ∈ p, c ∈ l := by
  induction l with
  | nil =>
    intro c hc
    rw [hasSub, List.isEmpty_iff] at h
    subst h; cases hc
  | cons y ys ih =>
    intro c hc
    rw [hasSub, Bool.or_eq_true] at h
    rcases h with h | h
    · exact startsWith_subset h c hc
    · exact List.mem_cons_of_mem _ (ih h c hc)

/-- Joining a nonempty list of nonempty strings with a nonempty separator is
nonempty (this is why the Python `or`-placeholder fires exactly on `[]`). -/
lemma pyJoin_ne_empty {sep : String} {l : List String} (hl : l ≠ [])
    (hx : ∀ x ∈ l, x ≠ "") (hsep : sep ≠ "") : pyJoin sep l ≠ "" := by
  match l with
  | [] => exact absurd rfl hl
  | [x] => simpa [pyJoin] using hx x (by simp)
  | x :: y :: ys =>
    intro h
    have hdata : (x ++ sep ++ pyJoin sep (y :: ys)).data = [] :=
      congrArg String.data h
    rw [String.data_append, String.data_append, List.append_eq_nil,
      List.append_eq_nil] at hdata
    exact hsep (by
      have : sep.data = [] := hdata.1.2
      cases sep; simp_all)

/-- Every extracted fact is a nonempty string: its source fragment contained
`" is "` or `" was "`, so it has a non-whitespace character surviving strip. -/
lemma fact_extractor_facts_ne_empty (s : NewsState) :
    ∀ x ∈ (fact_extractor s).facts, x ≠ "" := by
  intro x hx
  simp only [fact_extractor, List.mem_map, List.mem_filter] at hx
  obtain ⟨f, ⟨_, hcond⟩, hxf⟩ := hx
  subst hxf
  intro hempty
  have hall := pyStrip_eq_empty_forall hempty
  rw [Bool.or_eq_true] at hcond
  rcases hcond with hm | hm
  · have : 'i' ∈ f.data := hasSub_subset hm 'i' (by decide)
    exact absurd (hall 'i' this) (by decide)
  · have : 'w' ∈ f.data := hasSub_subset hm 'w' (by decide)
    exact absurd (hall 'w' this) (by decide)

/-- Every matched bias term is one of the five fixed nonempty terms. -/
lemma bias_analyzer_words_ne_empty (s : NewsState) :
    ∀ w ∈ (bias_analyzer s).bias_words, w ≠ "" := by
  intro w hw
  simp only [bias_analyzer, List.mem_filter] at hw
  have hfix : ∀ w ∈ biased_words, w ≠ "" := by decide
  exact hfix w hw.1

/-- The score component of the supervisor's decision table, isolated. -/
lemma supervisor_agent_score (s : NewsState) :
    (supervisor_agent s).score =
      (if s.bias_words.length = 0 then mkRat 9 10
       else if s.bias_words.length ≤ 2 then mkRat 6 10
       else mkRat 3 10) := by
  by_cases h0 : s.bias_words.length = 0 <;>
    by_cases h2 : s.bias_words.length ≤ 2 <;>
      simp [supervisor_agent, h0, h2]

/-- The remark component of the supervisor's decision table, isolated. -/
lemma supervisor_agent_remark (s : NewsState) :
    (supervisor_agent s).remark =
      (if s.bias_words.length = 0 then "Mostly Neutral"
       else if s.bias_words.length ≤ 2 then "Moderately Biased"
       else "Highly Biased") := by
  by_cases h0 : s.bias_words.length = 0 <;>
    by_cases h2 : s.bias_words.length ≤ 2 <;>
      simp [supervisor_agent, h0, h2]

/-- The three-bucket table gives equal score/remark pairs exactly when the two
counts fall in the same bucket (same side of 0 and of 2). -/
lemma bucket_pair_eq (m n : Nat) :
    ((if m = 0 then mkRat 9 10 else if m ≤ 2 then mkRat 6 10 else mkRat 3 10) =
       (if n = 0 then mkRat 9 10 else if n ≤ 2 then mkRat 6 10 else mkRat 3 10) ∧
     (if m = 0 then "Mostly Neutral"
      else if m ≤ 2 then "Moderately Biased" else "Highly Biased") =
       (if n = 0 then "Mostly Neutral"
        else if n ≤ 2 then "Moderately Biased" else "Highly Biased")) ↔
    ((m = 0 ↔ n = 0) ∧ (m ≤ 2 ↔ n ≤ 2)) := by
  by_cases hm0 : m = 0 <;> by_cases hn0 : n = 0 <;>
    by_cases hm2 : m ≤ 2 <;> by_cases hn2 : n ≤ 2 <;>
      simp [hm0, hn0, hm2, hn2]

example : pySplit "a.b..c" '.' = ["a", "b", "", "c"] := by decide
example : pyStrip "  hi th " = "hi th" := by decide
example : pyContains "xis xx" "is " = true := by decide
example : showScore (mkRat 6 10) = "0.6" := by decide
example :
    run_news_analyzer "Rain was here." =
      ("Rain was here", "No bias indicators found", "0.9 (Mostly Neutral)",
       "Fact Extractor Agent executed\nBias Analyzer Agent executed\nSupervisor Agent calculated neutrality score") := by
  decide

/-- The rendered 4-tuple of a pipeline result, componentwise: the Python
`or`-placeholders fire exactly when the corresponding list is empty, because
pipeline facts and bias words are nonempty strings. -/
lemma render_app_components (s : NewsState) :
    ((app_invoke s).facts = [] →
      (render (app_invoke s)).1 = "No factual statements found") ∧
    ((app_invoke s).facts ≠ [] →
      (render (app_invoke s)).1 = pyJoin "\n" (app_invoke s).facts) ∧
    ((app_invoke s).bias_words = [] →
      (render (app_invoke s)).2.1 = "No bias indicators found") ∧
    ((app_invoke s).bias_words ≠ [] →
      (render (app_invoke s)).2.1 = pyJoin ", " (app_invoke s).bias_words) ∧
    (render (app_invoke s)).2.2.1 =
      showScore (app_invoke s).score ++ " (" ++ (app_invoke s).remark ++ ")" ∧
    (render (app_invoke s)).2.2.2 = pyJoin "\n" (app_invoke s).logs := by
  refine ⟨fun hf => ?_, fun hf => ?_, fun hb => ?_, fun hb => ?_, rfl, rfl⟩
  · simp [render, hf, pyJoin]
  · have hx : ∀ x ∈ (app_invoke s).facts, x ≠ "" := by
      have hfe : (app_invoke s).facts = (fact_extractor s).facts := rfl
      rw [hfe]
      exact fact_extractor_facts_ne_empty s
    have hne : pyJoin "\n" (app_invoke s).facts ≠ "" :=
      pyJoin_ne_empty hf hx (by decide)
    simp only [render]
    rw [if_neg hne]
  · simp [render, hb, pyJoin]
  · have hx : ∀ x ∈ (app_invoke s).bias_words, x ≠ "" := by
      have hbe : (app_invoke s).bias_words =
          (bias_analyzer (fact_extractor s)).bias_words := rfl
      rw [hbe]
      exact bias_analyzer_words_ne_empty (fact_extractor s)
    have hne : pyJoin ", " (app_invoke s).bias_words ≠ "" :=
      pyJoin_ne_empty hb hx (by decide)
    simp only [render]
    rw [if_neg hne]

/-! ## Claim theorems -/

/-- C1: `supervisor_agent` sets `score` and `remark` as a pure function of
`len(state.bias_words)` per the decision table — count 0 gives 0.9 and
"Mostly Neutral"; count 1 or 2 gives 0.6 and "Moderately Biased"; count ≥ 3
gives 0.3 and "Highly Biased" — total over all counts, and appends exactly
one trace line to the log. -/
theorem supervisor_decision_table (s : NewsState) :
    ((s.bias_words.length = 0 →
        (supervisor_agent s).score = mkRat 9 10 ∧
        (supervisor_agent s).remark = "Mostly Neutral") ∧
     ((s.bias_words.length = 1 ∨ s.bias_words.length = 2) →
        (supervisor_agent s).score = mkRat 6 10 ∧
        (supervisor_agent s).remark = "Moderately Biased") ∧
     (3 ≤ s.bias_words.length →
        (supervisor_agent s).score = mkRat 3 10 ∧
        (supervisor_agent s).remark = "Highly Biased")) ∧
    (supervisor_agent s).logs =
      s.logs ++ ["Supervisor Agent calculated neutrality score"] := by
  refine ⟨⟨fun h => ?_, fun h => ?_, fun h => ?_⟩, rfl⟩
  · exact ⟨by simp [supervisor_agent, h], by simp [supervisor_agent, h]⟩
  · rcases h with h | h <;>
      exact ⟨by simp [supervisor_agent, h], by simp [supervisor_agent, h]⟩
  · have h0 : ¬ s.bias_words.length = 0 := by omega
    have h2 : ¬ s.bias_words.length ≤ 2 := by omega
    exact ⟨by simp [supervisor_agent, h0, h2], by simp [supervisor_agent, h0, h2]⟩

/-- Witness for C1: the table evaluated at counts 0, 1 and 3. -/
theorem supervisor_decision_table_witness :
    (supervisor_agent (initState "" [])).score = mkRat 9 10 ∧
    (supervisor_agent { initState "" [] with
        bias_words := ["shocking"] }).remark = "Moderately Biased" ∧
    (supervisor_agent { initState "" [] with
        bias_words := ["a", "b", "c"] }).remark = "Highly Biased" :=
  ⟨((supervisor_decision_table (initState "" [])).1.1 rfl).1,
   ((supervisor_decision_table { initState "" [] with
       bias_words := ["shocking"] }).1.2.1 (Or.inl rfl)).2,
   ((supervisor_decision_table { initState "" [] with
       bias_words := ["a", "b", "c"] }).1.2.2 (by decide)).2⟩

/-- C3: `fact_extractor` splits `state.text` on periods, keeps exactly the
fragments containing `" is "` or `" was "`, writes the stripped fragments in
order to `facts`, appends one fixed trace line, touches nothing else, and is
a deterministic pure function of the text. -/
theorem fact_extractor_contract (s t : NewsState) :
    (fact_extractor s).facts =
      ((pySplit s.text '.').filter
        (fun f => pyContains f " is " || pyContains f " was ")).map pyStrip ∧
    (fact_extractor s).logs = s.logs ++ ["Fact Extractor Agent executed"] ∧
    (fact_extractor s).text = s.text ∧
    (fact_extractor s).bias_words = s.bias_words ∧
    (fact_extractor s).score = s.score ∧
    (fact_extractor s).remark = s.remark ∧
    (s.text = t.text → (fact_extractor s).facts = (fact_extractor t).facts) := by
  refine ⟨rfl, rfl, rfl, rfl, rfl, rfl, fun h => ?_⟩
  simp [fact_extractor, h]

/-- Witness for C3: determinism across two states sharing the same text. -/
theorem fact_extractor_contract_witness :
    (fact_extractor (initState "A cat is here." [])).facts =
      (fact_extractor { initState "A cat is here." ["old log"] with
        facts := ["stale"] }).facts :=
  (fact_extractor_contract _ _).2.2.2.2.2.2 rfl

/-- C4: `bias_analyzer` lowercases `state.text`, tests each of the five fixed
terms for substring containment, writes the matching terms in the fixed
list's order (an ordered sublist of it) to `bias_words`, and appends one
trace line, touching nothing else. -/
theorem bias_analyzer_contract (s : NewsState) :
    (bias_analyzer s).bias_words =
      biased_words.filter (fun w => pyContains (pyLower s.text) w) ∧
    List.Sublist (bias_analyzer s).bias_words biased_words ∧
    (∀ w, w ∈ (bias_analyzer s).bias_words ↔
        w ∈ biased_words ∧ pyContains (pyLower s.text) w = true) ∧
    (bias_analyzer s).logs = s.logs ++ ["Bias Analyzer Agent executed"] ∧
    (bias_analyzer s).text = s.text ∧
    (bias_analyzer s).facts = s.facts ∧
    (bias_analyzer s).score = s.score ∧
    (bias_analyzer s).remark = s.remark := by
  refine ⟨rfl, List.filter_sublist _, fun w => ?_, rfl, rfl, rfl, rfl, rfl⟩
  simp [bias_analyzer, List.mem_filter]

/-- Witness for C4: the membership characterization at a concrete article. -/
theorem bias_analyzer_contract_witness :
    "shocking" ∈ (bias_analyzer (initState "A Shocking story." [])).bias_words :=
  ((bias_analyzer_contract _).2.2.1 "shocking").mpr ⟨by decide, by decide⟩

/-- C9: each field has exactly one writer (facts by the fact extractor,
bias_words by the bias analyzer, score and remark by the supervisor, text by
nobody), logs only grows by appending, and the compiled graph runs the stages
in the fixed order Fact → Bias → Supervisor, so the end-to-end run carries
each producer's value to the final state. -/
theorem single_writer_fixed_order (s : NewsState) :
    ((fact_extractor s).text = s.text ∧
     (fact_extractor s).bias_words = s.bias_words ∧
     (fact_extractor s).score = s.score ∧
     (fact_extractor s).remark = s.remark ∧
     (fact_extractor s).logs = s.logs ++ ["Fact Extractor Agent executed"]) ∧
    ((bias_analyzer s).text = s.text ∧
     (bias_analyzer s).facts = s.facts ∧
     (bias_analyzer s).score = s.score ∧
     (bias_analyzer s).remark = s.remark ∧
     (bias_analyzer s).logs = s.logs ++ ["Bias Analyzer Agent executed"]) ∧
    ((supervisor_agent s).text = s.text ∧
     (supervisor_agent s).facts = s.facts ∧
     (supervisor_agent s).bias_words = s.bias_words ∧
     (supervisor_agent s).logs =
       s.logs ++ ["Supervisor Agent calculated neutrality score"]) ∧
    app_invoke s = supervisor_agent (bias_analyzer (fact_extractor s)) ∧
    (app_invoke s).text = s.text ∧
    (app_invoke s).facts = (fact_extractor s).facts ∧
    (app_invoke s).bias_words = (bias_analyzer s).bias_words ∧
    (app_invoke s).logs = s.logs ++
      ["Fact Extractor Agent executed", "Bias Analyzer Agent executed",
       "Supervisor Agent calculated neutrality score"] := by
  refine ⟨⟨rfl, rfl, rfl, rfl, rfl⟩, ⟨rfl, rfl, rfl, rfl, rfl⟩,
    ⟨rfl, rfl, rfl, rfl⟩, rfl, rfl, rfl, rfl, ?_⟩
  simp [app_invoke, fact_extractor, bias_analyzer, supervisor_agent]

/-- C10: the matched bias list never holds duplicates, has length at most 5,
and the "Highly Biased" branch is reachable only with counts 3, 4 or 5. -/
theorem bias_words_nodup_bounded (s : NewsState) :
    (bias_analyzer s).bias_words.Nodup ∧
    (bias_analyzer s).bias_words.length ≤ 5 ∧
    ((supervisor_agent (bias_analyzer s)).remark = "Highly Biased" →
      3 ≤ (bias_analyzer s).bias_words.length ∧
      (bias_analyzer s).bias_words.length ≤ 5) := by
  have hlen : (bias_analyzer s).bias_words.length ≤ 5 := by
    have h := List.length_filter_le
      (fun w => pyContains (pyLower s.text) w) biased_words
    simpa [bias_analyzer, biased_words] using h
  refine ⟨?_, hlen, fun h => ⟨?_, hlen⟩⟩
  · have hnd : biased_words.Nodup := by decide
    exact hnd.filter _
  · rw [supervisor_agent_remark] at h
    by_cases h0 : (bias_analyzer s).bias_words.length = 0
    · rw [if_pos h0] at h
      exact absurd h (by decide)
    · by_cases h2 : (bias_analyzer s).bias_words.length ≤ 2
      · rw [if_neg h0, if_pos h2] at h
        exact absurd h (by decide)
      · omega

/-- Witness for C10: a three-term article makes the bound tight at the
"Highly Biased" branch. -/
theorem bias_words_nodup_bounded_witness :
    3 ≤ (bias_analyzer (initState
      "a shocking disaster by a corrupt board" [])).bias_words.length :=
  ((bias_words_nodup_bounded _).2.2 (by decide)).1

/-- C2: a whitespace-only input short-circuits to the fixed error marker with
three empty fields; for any other input the trace output is exactly the log
of the three executed stages (with the optional summarizer line), so the
marker tuple is the only error path and every stage actually ran. -/
theorem run_validation_failure (text : String) :
    (pyStrip text = "" →
      run_news_analyzer text = ("❌ No article provided", "", "", "")) ∧
    (pyStrip text ≠ "" → text.length ≤ 1000 →
      (run_news_analyzer text).2.2.2 =
        "Fact Extractor Agent executed\nBias Analyzer Agent executed\nSupervisor Agent calculated neutrality score") ∧
    (pyStrip text ≠ "" → 1000 < text.length →
      (run_news_analyzer text).2.2.2 =
        "Article length > 1000 → Summarizer Agent executed\nFact Extractor Agent executed\nBias Analyzer Agent executed\nSupervisor Agent calculated neutrality score") := by
  refine ⟨fun h => ?_, fun h hlen => ?_, fun h hlen => ?_⟩
  · simp [run_news_analyzer, h]
  · have hgt : ¬ 1000 < text.length := by omega
    simp only [run_news_analyzer, if_neg h, gt_iff_lt, if_neg hgt]
    simp [render, app_invoke, fact_extractor, bias_analyzer, supervisor_agent,
      initState, pyJoin]
  · simp only [run_news_analyzer, if_neg h, gt_iff_lt, if_pos hlen]
    simp [render, app_invoke, fact_extractor, bias_analyzer, supervisor_agent,
      initState, pyJoin]

/-- Witness for C2: the empty and whitespace-only inputs hit the marker, a
real article hits the stage log. -/
theorem run_validation_failure_witness :
    run_news_analyzer "" = ("❌ No article provided", "", "", "") ∧
    run_news_analyzer "   " = ("❌ No article provided", "", "", "") ∧
    (run_news_analyzer "ok").2.2.2 =
      "Fact Extractor Agent executed\nBias Analyzer Agent executed\nSupervisor Agent calculated neutrality score" :=
  ⟨(run_validation_failure "").1 rfl,
   (run_validation_failure "   ").1 (by decide),
   (run_validation_failure "ok").2.1 (by decide) (by decide)⟩

/-- C5: past 1000 characters the pipeline operates on `summarizer_agent text`
(the first 5 period-delimited fragments rejoined) and the log records the
substitution; at 1000 characters or fewer it operates on the original text
and no summarizer line appears in the log. -/
theorem summarizer_trigger (text : String) (h : pyStrip text ≠ "") :
    (1000 < text.length →
      run_news_analyzer text =
        render (app_invoke (initState (summarizer_agent text)
          ["Article length > 1000 → Summarizer Agent executed"])) ∧
      pyContains (run_news_analyzer text).2.2.2
        "Summarizer Agent executed" = true) ∧
    (text.length ≤ 1000 →
      run_news_analyzer text = render (app_invoke (initState text [])) ∧
      pyContains (run_news_analyzer text).2.2.2
        "Summarizer Agent executed" = false) := by
  constructor
  · intro hlen
    have h1 : run_news_analyzer text =
        render (app_invoke (initState (summarizer_agent text)
          ["Article length > 1000 → Summarizer Agent executed"])) := by
      simp only [run_news_analyzer, if_neg h, gt_iff_lt, if_pos hlen]
    refine ⟨h1, ?_⟩
    rw [h1]
    simp only [render, app_invoke, fact_extractor, bias_analyzer,
      supervisor_agent, initState]
    decide
  · intro hlen
    have hgt : ¬ 1000 < text.length := by omega
    have h1 : run_news_analyzer text =
        render (app_invoke (initState text [])) := by
      simp only [run_news_analyzer, if_neg h, gt_iff_lt, if_neg hgt]
    refine ⟨h1, ?_⟩
    rw [h1]
    simp only [render, app_invoke, fact_extractor, bias_analyzer,
      supervisor_agent, initState]
    decide

/-- A 1001-character article, used to exercise the summarization branch. -/
def longArticle : String := ⟨List.replicate 1001 'x'⟩

set_option maxRecDepth 40000 in
/-- Witness for C5: the summarizer line appears for a 1001-character article
and is absent for a short one. -/
theorem summarizer_trigger_witness :
    pyContains (run_news_analyzer longArticle).2.2.2
      "Summarizer Agent executed" = true ∧
    pyContains (run_news_analyzer "Sun is out.").2.2.2
      "Summarizer Agent executed" = false :=
  ⟨((summarizer_trigger longArticle (by decide)).1 (by decide)).2,
   ((summarizer_trigger "Sun is out." (by decide)).2 (by decide)).2⟩

/-- C6: two articles get the same score/remark pair exactly when their
matched bias counts fall in the same bucket, so the pair changes exactly at
the documented thresholds (0 versus 1–2 versus ≥ 3) and at no other point. -/
theorem score_threshold_buckets (s t : NewsState) :
    ((supervisor_agent (bias_analyzer s)).score =
        (supervisor_agent (bias_analyzer t)).score ∧
     (supervisor_agent (bias_analyzer s)).remark =
        (supervisor_agent (bias_analyzer t)).remark) ↔
    (((bias_analyzer s).bias_words.length = 0 ↔
        (bias_analyzer t).bias_words.length = 0) ∧
     ((bias_analyzer s).bias_words.length ≤ 2 ↔
        (bias_analyzer t).bias_words.length ≤ 2)) := by
  rw [supervisor_agent_score, supervisor_agent_score,
    supervisor_agent_remark, supervisor_agent_remark]
  exact bucket_pair_eq _ _

/-- Witness for C6: two different two-term articles share the same pair. -/
theorem score_threshold_buckets_witness :
    (supervisor_agent (bias_analyzer
      (initState "a corrupt failure" []))).remark =
    (supervisor_agent (bias_analyzer
      (initState "an outrage and a disaster" []))).remark :=
  ((score_threshold_buckets (initState "a corrupt failure" [])
    (initState "an outrage and a disaster" [])).mpr (by decide)).2

/-- C8: the worked example — three fact fragments, two bias terms, and the
score display "0.6 (Moderately Biased)". -/
theorem example_article_run :
    (app_invoke (initState
      "The sky is blue. It was raining yesterday. This report is shocking and a disaster."
      [])).facts =
      ["The sky is blue", "It was raining yesterday",
       "This report is shocking and a disaster"] ∧
    (app_invoke (initState
      "The sky is blue. It was raining yesterday. This report is shocking and a disaster."
      [])).bias_words = ["shocking", "disaster"] ∧
    run_news_analyzer
      "The sky is blue. It was raining yesterday. This report is shocking and a disaster." =
      ("The sky is blue\nIt was raining yesterday\nThis report is shocking and a disaster",
       "shocking, disaster", "0.6 (Moderately Biased)",
       "Fact Extractor Agent executed\nBias Analyzer Agent executed\nSupervisor Agent calculated neutrality score") := by
  refine ⟨by decide, by decide, by decide⟩

/-- C7: for every input passing validation, the result tuple is the rendered
pipeline state — facts newline-joined with the placeholder exactly on an
empty facts list, bias words comma-joined with the placeholder exactly on an
empty match list, the score f-string, and the newline-joined log. -/
theorem render_contract (text : String) (r : NewsState)
    (h : pyStrip text ≠ "")
    (hr : r = app_invoke (initState
      (if 1000 < text.length then summarizer_agent text else text)
      (if 1000 < text.length
       then ["Article length > 1000 → Summarizer Agent executed"]
       else []))) :
    run_news_analyzer text = render r ∧
    (r.facts = [] →
      (run_news_analyzer text).1 = "No factual statements found") ∧
    (r.facts ≠ [] →
      (run_news_analyzer text).1 = pyJoin "\n" r.facts) ∧
    (r.bias_words = [] →
      (run_news_analyzer text).2.1 = "No bias indicators found") ∧
    (r.bias_words ≠ [] →
      (run_news_analyzer text).2.1 = pyJoin ", " r.bias_words) ∧
    (run_news_analyzer text).2.2.1 =
      showScore r.score ++ " (" ++ r.remark ++ ")" ∧
    (run_news_analyzer text).2.2.2 = pyJoin "\n" r.logs := by
  subst hr
  set s0 : NewsState := initState
      (if 1000 < text.length then summarizer_agent text else text)
      (if 1000 < text.length
       then ["Article length > 1000 → Summarizer Agent executed"]
       else []) with hs0
  have hrun : run_news_analyzer text = render (app_invoke s0) := by
    rw [hs0]
    by_cases hlen : 1000 < text.length
    · simp only [run_news_analyzer, if_neg h, gt_iff_lt, if_pos hlen]
    · simp only [run_news_analyzer, if_neg h, gt_iff_lt, if_neg hlen]
  obtain ⟨c1, c2, c3, c4, c5, c6⟩ := render_app_components s0
  rw [hrun]
  exact ⟨rfl, c1, c2, c3, c4, c5, c6⟩

/-- Witness for C7: an article with no fact fragment and no bias term hits
both placeholders. -/
theorem render_contract_witness :
    (run_news_analyzer "Bla bla.").1 = "No factual statements found" ∧
    (run_news_analyzer "Bla bla.").2.1 = "No bias indicators found" :=
  ⟨(render_contract "Bla bla." _ (by decide) rfl).2.1 (by decide),
   (render_contract "Bla bla." _ (by decide) rfl).2.2.2.1 (by decide)⟩

end NewsAnalyzer
